import Mathlib

/-!
Shallow embedding of the three scripts of this repository:

* `Code/Employee_ETL.py` — a pandas CSV merge driver: per-file column rename,
  coercion of the salary column to numeric, per-file median imputation,
  concatenation, write-out.
* `Code/ErrorHandling.py` — a PySpark driver with resilient read, safe
  distinct count, guarded SQL query and explicit exit codes.
* `Code/SQLite.py` — a trivial embedded-database create/insert/select script.

Exceptions are modelled with `Except`, tabular data with lists, machine
floats for salaries with `Rat` (all values in the scripts are exact
decimals), and the printed diagnostics as explicit string logs.
-/

set_option autoImplicit false

/-! ### String helpers

`strStarts s pat` models Python `s.startswith(pat)` and `strContains s pat`
models Python `pat in s`, both by structural recursion on the character
lists so that concrete instances reduce by `rfl`. -/

/-- Boolean test that `pat` is a prefix of `s`, on character lists. -/
def listStarts : List Char → List Char → Bool
  | [], _ => true
  | _ :: _, [] => false
  | a :: as, b :: bs => a == b && listStarts as bs

/-- Boolean test that `pat` occurs as a contiguous sublist of `s`. -/
def listInfix (pat : List Char) : List Char → Bool
  | [] => pat.isEmpty
  | b :: bs => listStarts pat (b :: bs) || listInfix pat bs

/-- Python `s.startswith(pat)`. -/
def strStarts (s pat : String) : Bool := listStarts pat.data s.data

/-- Python `pat in s` (substring test). -/
def strContains (s pat : String) : Bool := listInfix pat.data s.data

theorem listStarts_self (l : List Char) : listStarts l l = true := by
  induction l with
  | nil => rfl
  | cons a as ih => simp [listStarts, ih]

theorem listInfix_nil (l : List Char) : listInfix [] l = true := by
  cases l <;> simp [listInfix, listStarts, List.isEmpty]

theorem listInfix_append_self (pre pat : List Char) :
    listInfix pat (pre ++ pat) = true := by
  induction pre with
  | nil =>
    cases pat with
    | nil => rfl
    | cons a as => simp [listInfix, listStarts_self]
  | cons b bs ih =>
    cases pat with
    | nil => exact listInfix_nil _
    | cons a as => simp [listInfix, ih]

theorem strContains_append_left (s pat : String) :
    strContains (s ++ pat) pat = true := by
  unfold strContains
  rw [String.data_append]
  exact listInfix_append_self s.data pat.data

/-! ### Model of `Code/Employee_ETL.py`

A source CSV cell in the salary column is either a numeric value, a
non-numeric string, or absent.  `pd.to_numeric(col, errors='coerce')` maps
the latter two to null (`none`).  `Series.median()` skips nulls and returns
the middle element of the sorted numeric values, or the mean of the two
middle elements for an even count, and null for an empty series.
`fillna(m)` replaces nulls by `m` and is a no-op when `m` is itself null.
`pd.concat` refuses an empty list of objects. -/

/-- A cell of the salary column of a source file. -/
inductive Cell where
  | num (q : Rat)
  | nonNumeric (s : String)
  | missing
  deriving DecidableEq, Repr

/-- `pd.to_numeric(·, errors='coerce')` on one cell: numbers survive,
non-numeric and absent cells become null. -/
def toNumericCell : Cell → Option Rat
  | .num q => some q
  | .nonNumeric _ => none
  | .missing => none

/-- Insert into a sorted list of rationals. -/
def insertSorted (x : Rat) : List Rat → List Rat
  | [] => [x]
  | y :: ys => if x ≤ y then x :: y :: ys else y :: insertSorted x ys

/-- Sort a list of rationals ascending. -/
def sortRats : List Rat → List Rat
  | [] => []
  | x :: xs => insertSorted x (sortRats xs)

/-- `pandas.Series.median()` over the non-null values: null for an empty
series, middle element for an odd count, mean of the two middle elements
for an even count. -/
def seriesMedian (xs : List Rat) : Option Rat :=
  let s := sortRats xs
  let n := s.length
  if n = 0 then none
  else if n % 2 = 1 then some (s.getD (n / 2) 0)
  else some ((s.getD (n / 2 - 1) 0 + s.getD (n / 2) 0) / 2)

/-- `Series.fillna(fill)` on one value (a no-op when `fill` is null). -/
def fillna (v : Option Rat) (fill : Option Rat) : Option Rat :=
  match v with
  | some q => some q
  | none => fill

/-- The numeric salary values of one source file (after coercion). -/
def numericValues (file : List Cell) : List Rat :=
  file.filterMap toNumericCell

/-- The per-file transform of the ETL loop: coerce the salary column to
numeric, then fill nulls with that same file's median. -/
def transformFile (file : List Cell) : List (Option Rat) :=
  let coerced := file.map toNumericCell
  coerced.map (fun c => fillna c (seriesMedian (numericValues file)))

/-- The `standardized_dfs` list of the script: every file transformed. -/
def standardized_dfs (files : List (List Cell)) : List (List (Option Rat)) :=
  files.map transformFile

/-- Concatenate in order (row order = file-discovery order). -/
def concatAll {α : Type} : List (List α) → List α
  | [] => []
  | d :: ds => d ++ concatAll ds

/-- `pd.concat(dfs, ignore_index=True)`: raises `ValueError` ("No objects to
concatenate") on an empty list, else concatenates preserving order. -/
def pd_concat {α : Type} (dfs : List (List α)) : Except String (List α) :=
  if dfs.isEmpty then .error "No objects to concatenate"
  else .ok (concatAll dfs)

/-- The merged master dataset of the ETL script (salary column only). -/
def master_df (files : List (List Cell)) : Except String (List (Option Rat)) :=
  pd_concat (standardized_dfs files)

/-- The rename dictionary of the ETL script. -/
def rename_map : List (String × String) :=
  [("empID", "Employee_ID"), ("id", "Employee_ID"),
   ("sal", "Salary"), ("salary", "Salary"), ("dept", "Department")]

/-- `df.rename(columns=rename_map)` on one column name: renamed when a key
of the dictionary, unchanged otherwise. -/
def renameCol (c : String) : String :=
  match rename_map.lookup c with
  | some c2 => c2
  | none => c

/-- Number of rows contributed by the first `k` files (the offset of file
`k`'s rows in the merged output). -/
def offsetBefore (files : List (List Cell)) (k : Nat) : Nat :=
  ((files.take k).map List.length).sum

/-! ### Model of `Code/ErrorHandling.py`

A Spark DataFrame is a list of named columns; column values are nullable
integers (the scripts never look at the values except to count distinct
ones).  The Python exceptions that the script distinguishes become the
constructors of `PyExn`, and a raising call becomes an `Except PyExn`
value.  Printed diagnostics become explicit string logs. -/

/-- The exception classes distinguished by `ErrorHandling.py`:
`Py4JJavaError`, `AnalysisException`, `PySparkException` (with its `desc`
field), `FileNotFoundError`, and a plain `Exception`. -/
inductive PyExn where
  | py4jJavaError (msg : String)
  | analysisException (msg : String)
  | pySparkException (desc : String)
  | fileNotFoundError (msg : String)
  | genericException (msg : String)
  deriving DecidableEq, Repr

/-- A Spark DataFrame: named columns of nullable values. -/
abbrev SparkDF := List (String × List (Option Int))

/-- `df.columns`. -/
def columnsOf (df : SparkDF) : List String := df.map (fun col => col.1)

/-- `df.select(c)`: the values of column `c` (the script only selects a
column it has checked to be present). -/
def selectCol (df : SparkDF) (c : String) : List (Option Int) :=
  match df.lookup c with
  | some vals => vals
  | none => []

/-- `df.select(c).distinct()`: Spark `distinct` deduplicates rows treating
null as an ordinary value, so a null row survives as one distinct row. -/
def distinctRows (vals : List (Option Int)) : List (Option Int) :=
  vals.dedup

/-- The substring by which the script recognises a stopped SparkContext. -/
def stoppedContextMsg : String := "Cannot call methods on a stopped SparkContext"

/-- The message of the exception raised on a stopped session. -/
def sessionStoppedRaisedMsg : String :=
  "Spark session has been stopped. Please restart it."

/-- The prefix by which the script recognises a missing path (the Spark
`AnalysisException` text starts with a quoted path). -/
def pathMissingMsgStart : String := "\x27Path does not exist:"

/-- The message of the `FileNotFoundError` raised on a missing path. -/
def pathErrMsg (file_path : String) : String :=
  "File path does not exist: " ++ file_path

/-- `read_csv_handle_exceptions(spark, file_path)`, as a function of the
outcome of the underlying `spark.read.csv` call: a stopped-context
`Py4JJavaError` becomes a plain `Exception` with a remediation message, a
path-missing `AnalysisException` becomes a `FileNotFoundError` carrying the
path, and every other outcome passes through unchanged. -/
def read_csv_handle_exceptions (file_path : String)
    (readResult : Except PyExn SparkDF) : Except PyExn SparkDF :=
  match readResult with
  | .ok df => .ok df
  | .error (.py4jJavaError msg) =>
    if strContains msg stoppedContextMsg then
      .error (.genericException sessionStoppedRaisedMsg)
    else
      .error (.py4jJavaError msg)
  | .error (.analysisException msg) =>
    if strStarts msg pathMissingMsgStart then
      .error (.fileNotFoundError (pathErrMsg file_path))
    else
      .error (.analysisException msg)
  | .error e => .error e

/-- The condition under which the script classifies a failure as
"session already stopped". -/
def classifiedSessionStopped : PyExn → Bool
  | .py4jJavaError msg => strContains msg stoppedContextMsg
  | _ => false

/-- The condition under which the script classifies a failure as
"path does not exist". -/
def classifiedPathMissing : PyExn → Bool
  | .analysisException msg => strStarts msg pathMissingMsgStart
  | _ => false

/-- The warning printed by `safe_distinct_count` for a missing column. -/
def missingColumnWarning (column_name : String) : String :=
  "Warning: Column \x27" ++ column_name ++ "\x27 not found. Returning count=0."

/-- `safe_distinct_count(df, column_name)`: the distinct count of the
column when present, else zero plus a printed warning.  The second
component is the list of printed diagnostics. -/
def safe_distinct_count (df : SparkDF) (column_name : String) :
    Nat × List String :=
  if column_name ∈ columnsOf df then
    ((distinctRows (selectCol df column_name)).length, [])
  else
    (0, [missingColumnWarning column_name])

/-- `run_sql_query(spark, query)`, as a function of the outcome of the
underlying `spark.sql` call: a `PySparkException` is turned into the
sentinel `none` plus a printed diagnostic built from its `desc`; any other
exception propagates; a success is returned as is. -/
def run_sql_query (sqlResult : Except PyExn SparkDF) :
    Except PyExn (Option SparkDF × List String) :=
  match sqlResult with
  | .ok df => .ok (some df, [])
  | .error (.pySparkException desc) => .ok (none, ["SQL error: " ++ desc])
  | .error e => .error e

/-- The fixed input path of the driver. -/
def file_path : String := "hdfs:///user/data/customers.csv"

/-- The environment a run of `main` executes in: whether the
`SparkSession.builder...getOrCreate()` call succeeds, what the raw
`spark.read.csv` call yields, and whether some step after the read
(schema print, preview, checkpoint, view registration, result preview)
raises. -/
structure DriverEnv where
  sessionOk : Bool
  readResult : Except PyExn SparkDF
  postReadFailure : Option PyExn
  deriving Repr

/-- How a run of the driver terminates: an explicit exit code (`sys.exit`
or falling off the end of `main`), or an uncaught exception aborting the
interpreter. -/
inductive Outcome where
  | exitCode (n : Nat)
  | crash (e : PyExn)
  deriving DecidableEq, Repr

/-- The outcome of a driver run together with whether `spark.stop()` was
called before termination. -/
structure RunResult where
  outcome : Outcome
  stopCalled : Bool
  deriving DecidableEq, Repr

namespace Driver

/-- `main()` of `ErrorHandling.py`.  `create_spark_session` exits with
code 1 on failure (no session exists, so nothing is stopped).  A read
failure classified as `FileNotFoundError` stops the session and exits 2;
any other read failure stops the session and exits 3.  After a successful
read, an exception in any later step is uncaught: the run aborts without
reaching the final `spark.stop()`.  Otherwise `main` returns normally
(exit code 0) after stopping the session. -/
def main (env : DriverEnv) : RunResult :=
  if env.sessionOk = false then
    ⟨.exitCode 1, false⟩
  else
    match read_csv_handle_exceptions file_path env.readResult with
    | .error (.fileNotFoundError _) => ⟨.exitCode 2, true⟩
    | .error _ => ⟨.exitCode 3, true⟩
    | .ok _ =>
      match env.postReadFailure with
      | some e => ⟨.crash e, false⟩
      | none => ⟨.exitCode 0, true⟩

end Driver

/-! ### Model of `Code/SQLite.py`

The script opens a database, runs
`CREATE TABLE IF NOT EXISTS movie(title, year, score)`, inserts the row
`('Title', 2025, 9.5)`, selects everything back and closes.  The schema
declares no column types; the inserted row holds a text, an integer and a
real value. -/

/-- A SQLite value as used by the script. -/
inductive SqlValue where
  | text (s : String)
  | int (n : Int)
  | real (q : Rat)
  deriving DecidableEq, Repr

/-- A SQLite table: a column-name list and the stored rows. -/
structure SqlTable where
  columns : List String
  rows : List (List SqlValue)
  deriving DecidableEq, Repr

/-- The columns of the `movie` table as created by the script. -/
def movieColumns : List String := ["title", "year", "score"]

/-- `CREATE TABLE IF NOT EXISTS movie(title, year, score)`: keeps an
existing table, else creates an empty one with those columns. -/
def createTableIfMissing (db : Option SqlTable) : SqlTable :=
  match db with
  | some t => t
  | none => ⟨movieColumns, []⟩

/-- `INSERT INTO movie VALUES (...)`: appends one row. -/
def insertRow (t : SqlTable) (r : List SqlValue) : SqlTable :=
  ⟨t.columns, t.rows ++ [r]⟩

/-- `SELECT * FROM movie` followed by `fetchall()`: every stored row. -/
def selectAllRows (t : SqlTable) : List (List SqlValue) :=
  t.rows

/-- The row inserted by the script: `('Title', 2025, 9.5)`. -/
def insertedMovieRow : List SqlValue :=
  [.text "Title", .int 2025, .real (19/2)]

/-- The whole script, run against an initial database state (the file may
or may not already exist): create-if-missing, insert one row, select all.
Returns the final table and the rows fetched back. -/
def sqliteScript (db0 : Option SqlTable) : SqlTable × List (List SqlValue) :=
  let t1 := createTableIfMissing db0
  let t2 := insertRow t1 insertedMovieRow
  (t2, selectAllRows t2)

/-! ### Auxiliary lemmas -/

theorem length_insertSorted (x : Rat) (l : List Rat) :
    (insertSorted x l).length = l.length + 1 := by
  induction l with
  | nil => rfl
  | cons y ys ih =>
    unfold insertSorted
    split
    · rfl
    · simp [ih]

theorem length_sortRats (l : List Rat) : (sortRats l).length = l.length := by
  induction l with
  | nil => rfl
  | cons x xs ih => simp [sortRats, length_insertSorted, ih]

theorem seriesMedian_isSome {xs : List Rat} (h : xs ≠ []) :
    (seriesMedian xs).isSome = true := by
  have hlen : (sortRats xs).length ≠ 0 := by
    rw [length_sortRats]
    simpa [List.length_eq_zero] using h
  unfold seriesMedian
  simp only [hlen, if_false]
  split <;> rfl

theorem length_transformFile (f : List Cell) :
    (transformFile f).length = f.length := by
  simp [transformFile]

theorem transformFile_getElem? (f : List Cell) (i : Nat) (hi : i < f.length) :
    (transformFile f)[i]? =
      some (fillna (toNumericCell f[i]) (seriesMedian (numericValues f))) := by
  simp [transformFile, List.getElem?_map, List.getElem?_eq_getElem hi]

theorem concatAll_getElem? {α : Type} (dfs : List (List α)) (k i : Nat)
    (hk : k < dfs.length) (hi : i < dfs[k].length) :
    (concatAll dfs)[((dfs.take k).map List.length).sum + i]? = dfs[k][i]? := by
  induction dfs generalizing k with
  | nil => exact absurd hk (Nat.not_lt_zero k)
  | cons d ds ih =>
    cases k with
    | zero =>
      simpa [concatAll] using @List.getElem?_append_left _ d (concatAll ds) i hi
    | succ k' =>
      have hk' : k' < ds.length := Nat.lt_of_succ_lt_succ hk
      have hsum : (((d :: ds).take (k' + 1)).map List.length).sum =
          d.length + ((ds.take k').map List.length).sum := by
        simp [List.take_succ_cons]
      rw [hsum, Nat.add_assoc]
      have happ := @List.getElem?_append_right _ d (concatAll ds)
        (d.length + (((ds.take k').map List.length).sum + i))
        (Nat.le_add_right _ _)
      rw [Nat.add_sub_cancel_left] at happ
      show (d ++ concatAll ds)[d.length + (((ds.take k').map List.length).sum + i)]? =
        ds[k'][i]?
      rw [happ]
      exact ih k' hk' hi

/-! ### Claims about `Code/Employee_ETL.py` -/

/-- C7: when the path pattern matches zero files, `pd.concat` receives an
empty list of objects and raises `ValueError("No objects to concatenate")`
before anything is written; the outcome is this one deterministic failure
(the model is a pure function of the input), never a partial output. -/
theorem etl_zero_files_fails_deterministically :
    master_df [] = Except.error "No objects to concatenate" := rfl

/-! ### Claims about `Code/ErrorHandling.py` -/

/-- The count the spec describes for `safe_distinct_count`: the number of
distinct non-null values of the column. -/
def specDistinctNonNullCount (vals : List (Option Int)) : Nat :=
  (vals.filterMap id).dedup.length

/-- C2, counterexample: on a present column holding one number and one
null, `df.select(c).distinct().count()` counts the null row, returning 2,
while the count of distinct non-null values is 1.  The claim that the
returned count equals the distinct non-null count is false. -/
theorem safe_distinct_count_counts_null_counterexample :
    (safe_distinct_count [("x", [some 1, none])] "x").1 = 2 ∧
    specDistinctNonNullCount (selectCol [("x", [some 1, none])] "x") = 1 ∧
    ((2 : Nat) == 1) = false := by
  refine ⟨by decide, by decide, rfl⟩

/-- C2, amended: when the column is present, `safe_distinct_count` returns
the number of distinct values of the column with null counted as a value
(the returned length enumerates each value of the column exactly once,
nulls included) and prints nothing; when the column is absent it returns 0
and prints a warning; it never raises (it is a total function). -/
theorem safe_distinct_count_contract (df : SparkDF) (c : String) :
    (c ∈ columnsOf df →
      (safe_distinct_count df c).1 = (distinctRows (selectCol df c)).length ∧
      (safe_distinct_count df c).2 = [] ∧
      (distinctRows (selectCol df c)).Nodup ∧
      (∀ v, v ∈ distinctRows (selectCol df c) ↔ v ∈ selectCol df c)) ∧
    (c ∉ columnsOf df →
      safe_distinct_count df c = (0, [missingColumnWarning c])) := by
  constructor
  · intro h
    refine ⟨by simp [safe_distinct_count, h], by simp [safe_distinct_count, h],
      List.nodup_dedup _, fun v => List.mem_dedup⟩
  · intro h
    simp [safe_distinct_count, h]

/-- Witness for C2: both branches of `safe_distinct_count_contract` at
concrete inputs. -/
theorem safe_distinct_count_contract_witness :
    (safe_distinct_count [("x", [some 1, none])] "x").1 = 2 ∧
    safe_distinct_count [("x", [some 1, none])] "y" =
      (0, [missingColumnWarning "y"]) := by
  constructor
  · have h := ((safe_distinct_count_contract [("x", [some 1, none])] "x").1
      (by decide)).1
    rw [h]
    decide
  · exact (safe_distinct_count_contract [("x", [some 1, none])] "y").2 (by decide)

/-- C4: `run_sql_query` returns the query's result on success, and on a
failure classified as a `PySparkException` it returns the sentinel `none`
together with a printed diagnostic that contains the failure description,
instead of raising. -/
theorem run_sql_query_contract (res : Except PyExn SparkDF) :
    (∀ df, res = Except.ok df → run_sql_query res = Except.ok (some df, [])) ∧
    (∀ desc, res = Except.error (PyExn.pySparkException desc) →
      run_sql_query res = Except.ok (none, ["SQL error: " ++ desc]) ∧
      strContains ("SQL error: " ++ desc) desc = true) := by
  constructor
  · intro df h
    subst h
    rfl
  · intro desc h
    subst h
    exact ⟨rfl, strContains_append_left "SQL error: " desc⟩

/-- Witness for C4: a successful query and a failing one, at concrete
inputs. -/
theorem run_sql_query_contract_witness :
    run_sql_query (Except.ok ([] : SparkDF)) = Except.ok (some [], []) ∧
    run_sql_query (Except.error (PyExn.pySparkException "TABLE_OR_VIEW_NOT_FOUND")) =
      Except.ok (none, ["SQL error: " ++ "TABLE_OR_VIEW_NOT_FOUND"]) :=
  ⟨(run_sql_query_contract _).1 [] rfl,
   ((run_sql_query_contract _).2 "TABLE_OR_VIEW_NOT_FOUND" rfl).1⟩

/-- C8: a failure in any step after the successful read (schema print,
preview, checkpointing, view registration) is uncaught in `main`, so the
run aborts without `spark.stop()` ever being called: the session handle is
not released on that exit path.  Evaluated here at a concrete run whose
checkpoint step fails. -/
theorem driver_stop_skipped_on_post_read_failure :
    Driver.main ⟨true, Except.ok [], some (PyExn.genericException "checkpoint failed")⟩ =
      ⟨Outcome.crash (PyExn.genericException "checkpoint failed"), false⟩ := rfl

/-! ### Claims about `Code/SQLite.py` -/

/-- C9, counterexample: the `movie` table created by the script has the
three columns `title`, `year`, `score`, not two. -/
theorem sqlite_two_columns_counterexample :
    (sqliteScript none).1.columns = ["title", "year", "score"] ∧
    ((sqliteScript none).1.columns.length == 2) = false := ⟨rfl, rfl⟩

/-- C3, counterexample: on a stopped-context failure the raised error
message is "Spark session has been stopped. Please restart it.", which
does not contain the words "restart the session". -/
theorem read_csv_remediation_wording_counterexample :
    read_csv_handle_exceptions file_path
      (Except.error (PyExn.py4jJavaError stoppedContextMsg)) =
      Except.error (PyExn.genericException sessionStoppedRaisedMsg) ∧
    strContains sessionStoppedRaisedMsg "restart the session" = false := by
  constructor
  · have hc : strContains stoppedContextMsg stoppedContextMsg = true := by decide
    simp [read_csv_handle_exceptions, hc]
  · decide

/-- C3, amended: `read_csv_handle_exceptions` returns a successful read
unchanged; on a failure classified as session-already-stopped it fails
with a plain exception carrying the remediation message "Spark session has
been stopped. Please restart it."; on a failure classified as
path-does-not-exist it fails with a `FileNotFoundError` carrying the
offending path; and it propagates every other failure unchanged. -/
theorem read_csv_classification (p : String) (res : Except PyExn SparkDF) :
    (∀ df, res = Except.ok df → read_csv_handle_exceptions p res = Except.ok df) ∧
    (∀ e, res = Except.error e → classifiedSessionStopped e = true →
      read_csv_handle_exceptions p res =
        Except.error (PyExn.genericException sessionStoppedRaisedMsg)) ∧
    (∀ e, res = Except.error e → classifiedPathMissing e = true →
      read_csv_handle_exceptions p res =
        Except.error (PyExn.fileNotFoundError (pathErrMsg p)) ∧
      strContains (pathErrMsg p) p = true) ∧
    (∀ e, res = Except.error e → classifiedSessionStopped e = false →
      classifiedPathMissing e = false →
      read_csv_handle_exceptions p res = Except.error e) := by
  refine ⟨?_, ?_, ?_, ?_⟩
  · intro df h
    subst h
    rfl
  · intro e h hc
    subst h
    cases e <;> simp_all [classifiedSessionStopped, read_csv_handle_exceptions]
  · intro e h hc
    subst h
    refine ⟨?_, strContains_append_left "File path does not exist: " p⟩
    cases e <;> simp_all [classifiedPathMissing, read_csv_handle_exceptions]
  · intro e h h1 h2
    subst h
    cases e <;>
      simp_all [classifiedSessionStopped, classifiedPathMissing,
        read_csv_handle_exceptions]

/-- Witness for C3: the three classified branches at concrete inputs. -/
theorem read_csv_classification_witness :
    read_csv_handle_exceptions "/data/a.csv"
      (Except.error (PyExn.py4jJavaError stoppedContextMsg)) =
      Except.error (PyExn.genericException sessionStoppedRaisedMsg) ∧
    (read_csv_handle_exceptions "/data/a.csv"
      (Except.error (PyExn.analysisException pathMissingMsgStart)) =
      Except.error (PyExn.fileNotFoundError (pathErrMsg "/data/a.csv")) ∧
      strContains (pathErrMsg "/data/a.csv") "/data/a.csv" = true) ∧
    read_csv_handle_exceptions "/data/a.csv"
      (Except.error (PyExn.pySparkException "boom")) =
      Except.error (PyExn.pySparkException "boom") :=
  ⟨(read_csv_classification _ _).2.1 _ rfl (by decide),
   (read_csv_classification _ _).2.2.1 _ rfl (by decide),
   (read_csv_classification _ _).2.2.2 _ rfl (by decide) (by decide)⟩

/-- Whether a read outcome is a `FileNotFoundError` failure. -/
def isFileNotFoundResult : Except PyExn SparkDF → Bool
  | .error (.fileNotFoundError _) => true
  | _ => false

/-- Whether a read outcome is a failure at all. -/
def isErrorResult : Except PyExn SparkDF → Bool
  | .error _ => true
  | .ok _ => false

/-- C6: the driver exits with code 1 exactly when session creation fails;
with code 2 exactly when the session exists and the read fails with a
`FileNotFoundError`; with code 3 exactly when the session exists and the
read fails any other way; with code 0 exactly on full success; and every
explicit exit code it produces is one of 0, 1, 2, 3. -/
theorem driver_exit_codes (env : DriverEnv) :
    ((Driver.main env).outcome = Outcome.exitCode 1 ↔ env.sessionOk = false) ∧
    ((Driver.main env).outcome = Outcome.exitCode 2 ↔ env.sessionOk = true ∧
      isFileNotFoundResult
        (read_csv_handle_exceptions file_path env.readResult) = true) ∧
    ((Driver.main env).outcome = Outcome.exitCode 3 ↔ env.sessionOk = true ∧
      isErrorResult (read_csv_handle_exceptions file_path env.readResult) = true ∧
      isFileNotFoundResult
        (read_csv_handle_exceptions file_path env.readResult) = false) ∧
    ((Driver.main env).outcome = Outcome.exitCode 0 ↔ env.sessionOk = true ∧
      isErrorResult (read_csv_handle_exceptions file_path env.readResult) = false ∧
      env.postReadFailure = none) ∧
    (∀ n, (Driver.main env).outcome = Outcome.exitCode n → n ≤ 3) := by
  obtain ⟨sOk, rres, prf⟩ := env
  cases sOk with
  | false =>
    refine ⟨by simp [Driver.main], by simp [Driver.main], by simp [Driver.main],
      by simp [Driver.main], ?_⟩
    intro n hn
    simp [Driver.main] at hn
    omega
  | true =>
    cases hr : read_csv_handle_exceptions file_path rres with
    | ok df =>
      cases prf with
      | none =>
        refine ⟨by simp [Driver.main, hr], by simp [Driver.main, hr, isFileNotFoundResult],
          by simp [Driver.main, hr, isErrorResult],
          by simp [Driver.main, hr, isErrorResult], ?_⟩
        intro n hn
        simp [Driver.main, hr] at hn
        omega
      | some e =>
        refine ⟨by simp [Driver.main, hr], by simp [Driver.main, hr, isFileNotFoundResult],
          by simp [Driver.main, hr, isErrorResult],
          by simp [Driver.main, hr, isErrorResult], ?_⟩
        intro n hn
        simp [Driver.main, hr] at hn
    | error e =>
      cases e <;>
        refine ⟨by simp [Driver.main, hr], by simp [Driver.main, hr, isFileNotFoundResult],
          by simp [Driver.main, hr, isErrorResult, isFileNotFoundResult],
          by simp [Driver.main, hr, isErrorResult], fun n hn => by
            simp [Driver.main, hr] at hn
            omega⟩

/-- Witness for C6: each exit code realised at a concrete environment. -/
theorem driver_exit_codes_witness :
    (Driver.main ⟨false, Except.ok [], none⟩).outcome = Outcome.exitCode 1 ∧
    (Driver.main ⟨true, Except.ok [], none⟩).outcome = Outcome.exitCode 0 ∧
    (Driver.main ⟨true, Except.error (PyExn.analysisException pathMissingMsgStart),
      none⟩).outcome = Outcome.exitCode 2 ∧
    (Driver.main ⟨true, Except.error (PyExn.pySparkException "boom"),
      none⟩).outcome = Outcome.exitCode 3 :=
  ⟨(driver_exit_codes _).1.mpr rfl,
   (driver_exit_codes _).2.2.2.1.mpr ⟨rfl, by decide, rfl⟩,
   (driver_exit_codes _).2.1.mpr ⟨rfl, by decide⟩,
   (driver_exit_codes _).2.2.1.mpr ⟨rfl, by decide, by decide⟩⟩

/-- C9, amended: the embedded-database example operates on a simple
three-column relational table with columns `title`, `year`, `score` (no
types are declared in the schema; the one inserted row holds a text title,
an integer year and a real score): the script creates that table if it is
absent, keeps it if present, inserts one row, and reading back returns
every stored row — in particular the inserted one. -/
theorem sqlite_script_roundtrip (db0 : Option SqlTable) :
    movieColumns.length = 3 ∧
    createTableIfMissing none = ⟨movieColumns, []⟩ ∧
    (∀ t, createTableIfMissing (some t) = t) ∧
    (sqliteScript db0).2 = (createTableIfMissing db0).rows ++ [insertedMovieRow] ∧
    insertedMovieRow ∈ (sqliteScript db0).2 := by
  refine ⟨rfl, rfl, fun t => rfl, rfl, ?_⟩
  simp [sqliteScript, insertRow, selectAllRows]

theorem renameCol_eq_salary_iff (c : String) :
    renameCol c = "Salary" ↔ c = "sal" ∨ c = "salary" ∨ c = "Salary" := by
  by_cases h1 : c = "empID"
  · subst h1; decide
  by_cases h2 : c = "id"
  · subst h2; decide
  by_cases h3 : c = "sal"
  · subst h3; decide
  by_cases h4 : c = "salary"
  · subst h4; decide
  by_cases h5 : c = "dept"
  · subst h5; decide
  have e1 : (c == "empID") = false := beq_eq_false_iff_ne.mpr h1
  have e2 : (c == "id") = false := beq_eq_false_iff_ne.mpr h2
  have e3 : (c == "sal") = false := beq_eq_false_iff_ne.mpr h3
  have e4 : (c == "salary") = false := beq_eq_false_iff_ne.mpr h4
  have e5 : (c == "dept") = false := beq_eq_false_iff_ne.mpr h5
  simp [renameCol, rename_map, List.lookup, e1, e2, e3, e4, e5, h3, h4]

theorem count_salary_after_rename (cols : List String) :
    (cols.map renameCol).count "Salary" =
      cols.count "sal" + cols.count "salary" + cols.count "Salary" := by
  induction cols with
  | nil => rfl
  | cons c cs ih =>
    simp only [List.map_cons, List.count_cons, ih]
    by_cases h3 : c = "sal"
    · subst h3
      simp [renameCol, rename_map, List.lookup]
      omega
    by_cases h4 : c = "salary"
    · subst h4
      simp [renameCol, rename_map, List.lookup]
      omega
    by_cases h6 : c = "Salary"
    · subst h6
      have hr : renameCol "Salary" = "Salary" := by decide
      simp [hr]
      omega
    have hr : renameCol c ≠ "Salary" := by
      intro hEq
      rcases (renameCol_eq_salary_iff c).1 hEq with h | h | h
      · exact h3 h
      · exact h4 h
      · exact h6 h
    have f1 : (renameCol c == "Salary") = false := beq_eq_false_iff_ne.mpr hr
    have f2 : (c == "sal") = false := beq_eq_false_iff_ne.mpr h3
    have f3 : (c == "salary") = false := beq_eq_false_iff_ne.mpr h4
    have f4 : (c == "Salary") = false := beq_eq_false_iff_ne.mpr h6
    simp [f1, f2, f3, f4]

/-- C5: the rename map sends each recognised synonym to its canonical
name (`empID`/`id` to `Employee_ID`, `sal`/`salary` to `Salary`, `dept` to
`Department`): the two example headers both become
`Employee_ID, Salary, Department`, any column among the synonyms maps into
the canonical names, and a file with exactly one salary synonym (and no
column already called `Salary`) ends up with exactly one `Salary` column
after the rename applied before concatenation. -/
theorem rename_canonicalizes (cols : List String) :
    ["empID", "sal", "dept"].map renameCol =
      ["Employee_ID", "Salary", "Department"] ∧
    ["id", "salary", "dept"].map renameCol =
      ["Employee_ID", "Salary", "Department"] ∧
    (∀ c, c ∈ ["empID", "id", "sal", "salary", "dept"] →
      renameCol c ∈ ["Employee_ID", "Salary", "Department"]) ∧
    (cols.count "sal" + cols.count "salary" = 1 → cols.count "Salary" = 0 →
      (cols.map renameCol).count "Salary" = 1) := by
  refine ⟨by decide, by decide, ?_, ?_⟩
  · intro c hc
    simp only [List.mem_cons, List.not_mem_nil, or_false] at hc
    rcases hc with rfl | rfl | rfl | rfl | rfl <;> decide
  · intro hsyn hsal
    rw [count_salary_after_rename, hsyn, hsal]

/-- Witness for C5: the first example file has exactly one `Salary` column
after the rename, and each synonym lands on a canonical name. -/
theorem rename_canonicalizes_witness :
    (["empID", "sal", "dept"].map renameCol).count "Salary" = 1 ∧
    renameCol "empID" ∈ ["Employee_ID", "Salary", "Department"] :=
  ⟨(rename_canonicalizes ["empID", "sal", "dept"]).2.2.2 (by decide) (by decide),
   (rename_canonicalizes []).2.2.1 "empID" (by decide)⟩

/-- C10: for a source file in which every salary value is missing or
non-numeric, the coerced column is all null, its median is undefined
(null), and `fillna` is a no-op: the transformed file is all nulls, and
the merge still completes (the master dataset is produced). -/
theorem undefined_median_leaves_nulls (files : List (List Cell)) (f : List Cell)
    (hf : f ∈ files) (hall : ∀ c ∈ f, toNumericCell c = none) :
    transformFile f = List.replicate f.length none ∧
    master_df files = Except.ok (concatAll (standardized_dfs files)) := by
  constructor
  · have hnum : numericValues f = [] := List.filterMap_eq_nil_iff.2 hall
    refine List.eq_replicate_iff.2 ⟨by simp [transformFile], ?_⟩
    intro b hb
    simp only [transformFile, List.map_map, List.mem_map] at hb
    obtain ⟨c, hc, hcb⟩ := hb
    rw [← hcb]
    simp [Function.comp, hall c hc, hnum, fillna, seriesMedian, sortRats]
  · rcases files with _ | ⟨f0, fs⟩
    · cases hf
    · rfl

/-- Witness for C10: a one-file merge whose only file has one absent and
one non-numeric salary. -/
theorem undefined_median_leaves_nulls_witness :
    transformFile [Cell.missing, Cell.nonNumeric "n/a"] = List.replicate 2 none ∧
    master_df [[Cell.missing, Cell.nonNumeric "n/a"]] =
      Except.ok (concatAll (standardized_dfs [[Cell.missing, Cell.nonNumeric "n/a"]])) :=
  undefined_median_leaves_nulls _ _ (by decide) (by decide)

/-- C1: in the merged output, the salary of any row whose source salary is
non-numeric or absent equals the median of the numeric salaries of that
same source file: row `i` of file `k` sits at the file-discovery offset
plus `i` in the master dataset, the file's own median is defined, and the
merged entry equals exactly that median. -/
theorem imputed_salary_is_own_file_median (files : List (List Cell)) (k i : Nat)
    (hk : k < files.length) (hi : i < files[k].length)
    (hcell : toNumericCell files[k][i] = none)
    (hnum : numericValues files[k] ≠ []) :
    master_df files = Except.ok (concatAll (standardized_dfs files)) ∧
    (seriesMedian (numericValues files[k])).isSome = true ∧
    (concatAll (standardized_dfs files))[offsetBefore files k + i]? =
      some (seriesMedian (numericValues files[k])) := by
  refine ⟨?_, seriesMedian_isSome hnum, ?_⟩
  · rcases files with _ | ⟨f0, fs⟩
    · exact absurd hk (by simp)
    · rfl
  · have hks : k < (standardized_dfs files).length := by
      simpa [standardized_dfs] using hk
    have hgetk : (standardized_dfs files)[k] = transformFile files[k] := by
      simp [standardized_dfs]
    have his : i < (standardized_dfs files)[k].length := by
      rw [hgetk, length_transformFile]
      exact hi
    have hoff : (((standardized_dfs files).take k).map List.length).sum =
        offsetBefore files k := by
      unfold standardized_dfs offsetBefore
      rw [← List.map_take, List.map_map]
      exact congrArg List.sum (List.map_congr_left (fun a _ => length_transformFile a))
    have hcat := concatAll_getElem? (standardized_dfs files) k i hks his
    rw [hoff] at hcat
    rw [hcat, hgetk, transformFile_getElem? files[k] i hi, hcell]
    rfl

/-- Witness for C1: two files; the absent salary in the first file is
replaced by the first file's own median. -/
theorem imputed_salary_is_own_file_median_witness :
    master_df [[Cell.num 1, Cell.missing, Cell.num 3], [Cell.num 10]] =
      Except.ok (concatAll (standardized_dfs
        [[Cell.num 1, Cell.missing, Cell.num 3], [Cell.num 10]])) ∧
    (seriesMedian (numericValues [Cell.num 1, Cell.missing, Cell.num 3])).isSome = true ∧
    (concatAll (standardized_dfs
      [[Cell.num 1, Cell.missing, Cell.num 3], [Cell.num 10]]))[1]? =
      some (seriesMedian (numericValues [Cell.num 1, Cell.missing, Cell.num 3])) :=
  imputed_salary_is_own_file_median _ 0 1 (by decide) (by decide) (by decide) (by decide)

/-- Witness for C9: the inserted row is among the rows read back from a
fresh database. -/
theorem sqlite_script_roundtrip_witness :
    insertedMovieRow ∈ (sqliteScript none).2 :=
  (sqlite_script_roundtrip none).2.2.2.2
